import Mathlib

/-- Decidable equality for `Except`, so that concrete runs can be checked by
`decide`. -/
instance {ε α : Type} [DecidableEq ε] [DecidableEq α] :
    DecidableEq (Except ε α) := fun a b =>
  match a, b with
  | .error e, .error f =>
    if h : e = f then .isTrue (by rw [h]) else .isFalse (by simp [h])
  | .error _, .ok _ => .isFalse (by simp)
  | .ok _, .error _ => .isFalse (by simp)
  | .ok x, .ok y =>
    if h : x = y then .isTrue (by rw [h]) else .isFalse (by simp [h])

/-!
Shallow embedding of the two oVirt REST API client variants:

* package `api` (token strategy): SSO OAuth password-grant authentication,
  bearer-token requests, one-shot re-authentication on a 401 response;
* package `ovirt_api` (cookie strategy): HTTP Basic `HEAD` authentication
  obtaining a persistent-auth cookie, no re-authentication branch.

HTTP transport is modelled as an oracle: an infinite trace of `DoResult`s
indexed by the number of `http.Client.Do` calls made so far.  Request
construction failure (`http.NewRequest`) and the JSON decoding of the SSO
response (`json.Unmarshal`) are abstract oracle components, and the XML
decoding of `SendAndParse` (`xml.Unmarshal`) is an explicit function
parameter, since their internals are Go standard-library code outside this
repository.  Logging is pure observability and is not modelled.
-/

namespace GoStrings

/-- Membership of a character in a Go cutset string (Go cutsets are sets of
characters, not patterns). -/
def inCutset (cutset : String) (c : Char) : Bool :=
  cutset.data.contains c

/-- Go `strings.TrimLeft s cutset`: remove all leading characters contained
in the cutset. -/
def goTrimLeft (s cutset : String) : String :=
  ⟨s.data.dropWhile (inCutset cutset)⟩

/-- Go `strings.TrimRight s cutset`: remove all trailing characters contained
in the cutset. -/
def goTrimRight (s cutset : String) : String :=
  ⟨(s.data.reverse.dropWhile (inCutset cutset)).reverse⟩

/-- Go `strings.Trim s cutset`: remove all leading and trailing characters
contained in the cutset. -/
def goTrim (s cutset : String) : String :=
  goTrimLeft (goTrimRight s cutset) cutset

/-- Go `strings.Split(s, ";")[0]`: the segment of `s` before the first `;`
(the whole of `s` when it has no `;`). -/
def splitSemicolonHead (s : String) : String :=
  ⟨s.data.takeWhile (fun c => c ≠ ';')⟩

/-- UTF-8 encoding of a single character, as byte values. -/
def utf8Bytes (c : Char) : List Nat :=
  let n := c.toNat
  if n < 128 then [n]
  else if n < 2048 then [192 + n / 64, 128 + n % 64]
  else if n < 65536 then [224 + n / 4096, 128 + (n / 64) % 64, 128 + n % 64]
  else [240 + n / 262144, 128 + (n / 4096) % 64, 128 + (n / 64) % 64,
    128 + n % 64]

/-- UTF-8 encoding of a string, as byte values. -/
def utf8Encode (s : String) : List Nat :=
  s.data.flatMap utf8Bytes

/-- Uppercase hexadecimal digit for a value below 16. -/
def hexDigit (n : Nat) : Char :=
  if n < 10 then Char.ofNat (48 + n) else Char.ofNat (55 + n)

/-- Percent-encoding of one byte, `%XX` with uppercase hex. -/
def percentByte (b : Nat) : String :=
  ⟨['%', hexDigit (b / 16), hexDigit (b % 16)]⟩

/-- Characters Go `url.QueryEscape` leaves unescaped: ASCII alphanumerics
and `-`, `_`, `.`, `~`. -/
def queryUnescaped (c : Char) : Bool :=
  (97 ≤ c.toNat && c.toNat ≤ 122) || (65 ≤ c.toNat && c.toNat ≤ 90) ||
  (48 ≤ c.toNat && c.toNat ≤ 57) || c = '-' || c = '_' || c = '.' || c = '~'

/-- Go `url.QueryEscape` of a single character. -/
def queryEscapeChar (c : Char) : String :=
  if queryUnescaped c then String.singleton c
  else if c = ' ' then "+"
  else String.join ((utf8Bytes c).map percentByte)

/-- Go `url.QueryEscape` of a string. -/
def queryEscape (s : String) : String :=
  String.join (s.data.map queryEscapeChar)

/-- Go `url.Values.Encode` applied to a list of key=value pairs already in
the sorted key order that `Encode` produces. -/
def valuesEncode (kvs : List (String × String)) : String :=
  String.intercalate "&" (kvs.map fun kv => queryEscape kv.1 ++ "=" ++ queryEscape kv.2)

/-- Standard base64 alphabet, index below 64. -/
def b64Char (n : Nat) : Char :=
  if n < 26 then Char.ofNat (65 + n)
  else if n < 52 then Char.ofNat (97 + (n - 26))
  else if n < 62 then Char.ofNat (48 + (n - 52))
  else if n = 62 then '+' else '/'

/-- Standard base64 encoding of a byte list, with padding. -/
def base64 : List Nat → String
  | [] => ""
  | [a] => ⟨[b64Char (a / 4), b64Char ((a % 4) * 16)]⟩ ++ "=="
  | [a, b] =>
    ⟨[b64Char (a / 4), b64Char ((a % 4) * 16 + b / 16), b64Char ((b % 16) * 4)]⟩ ++ "="
  | a :: b :: c :: rest =>
    ⟨[b64Char (a / 4), b64Char ((a % 4) * 16 + b / 16),
      b64Char ((b % 16) * 4 + c / 64), b64Char (c % 64)]⟩ ++ base64 rest

/-- Go `req.SetBasicAuth u p`: the value of the `Authorization` header. -/
def basicAuthValue (u p : String) : String :=
  "Basic " ++ base64 (utf8Encode (u ++ ":" ++ p))

end GoStrings

namespace Http

/-- An HTTP request as the client builds it: method, target URL, the headers
set on it, and the body bytes (as a string). -/
structure Request where
  method : String
  url : String
  headers : List (String × String)
  body : String
deriving Repr, DecidableEq

/-- An HTTP response as the client observes it: numeric status code, status
line text, the `Set-Cookie` header value, and the result of reading the body
(`io.ReadAll` may fail). -/
structure Response where
  statusCode : Nat
  status : String
  setCookie : String
  bodyRead : Except String String
deriving Repr

/-- Result of one `http.Client.Do` call: a transport error or a response. -/
inductive DoResult where
  | transErr (msg : String)
  | success (r : Response)
deriving Repr

/-- The parsed SSO JSON response (`ssoResponseJSON` in the source). -/
structure SsoResponseJSON where
  accessToken : String
  ssoError : String
  ssoErrorCode : String
deriving Repr, DecidableEq

/-- The environment a client runs against: the transport trace (`env i` is
the result of the i-th `Do` call), the `http.NewRequest` outcome for a given
method and URL (`none` means construction succeeds), and the `json.Unmarshal`
outcome for an SSO response body. -/
structure Oracle where
  env : Nat → DoResult
  reqErr : String → String → Option String
  jsonSSO : String → Except String SsoResponseJSON

/-- Value of the first header with the given name, if any. -/
def headerValue (r : Request) (name : String) : Option String :=
  (r.headers.find? (fun kv => kv.1 == name)).map (·.2)

end Http

open GoStrings Http

/-- The target URI both variants build:
`strings.Trim(url, "/") + "/" + strings.Trim(path, "/")`. -/
def requestURI (url path : String) : String :=
  goTrim url "/" ++ "/" ++ goTrim path "/"

namespace api

/-- The token-strategy client state (package `api`).  The transport, logger
and debug flag carry no claim-relevant state and are left to the oracle. -/
structure Client where
  url : String
  username : String
  password : String
  accessToken : String
deriving Repr, DecidableEq

/-- The SSO token endpoint URL: Go
`strings.TrimRight(c.url, "/api/") + "/sso/oauth/token"`.  Note that
`TrimRight` takes a cutset, so this removes ALL trailing characters drawn
from the set with the slash, a, p and i, not the five-character suffix. -/
def authURL (u : String) : String :=
  goTrimRight u "/api/" ++ "/sso/oauth/token"

/-- The form body `payload.Encode()` of the SSO request.  `url.Values.Encode`
emits keys in sorted order: grant_type, password, scope, username. -/
def ssoPayload (username password : String) : String :=
  valuesEncode [("grant_type", "password"), ("password", password),
    ("scope", "ovirt-app-api"), ("username", username)]

/-- Outcome of `Auth`: the returned error (if any), the client afterwards,
the next transport-trace index, and the requests sent. -/
structure AuthOut where
  result : Except String Unit
  client : Client
  next : Nat
  sent : List Request
deriving Repr

/-- The token-strategy `Auth`: POST the password grant to the SSO endpoint,
read and JSON-decode the body, fail on a non-empty `error` field or a
non-200 status, otherwise store `access_token`. -/
def Auth (O : Oracle) (c : Client) (i : Nat) : AuthOut :=
  let params := ssoPayload c.username c.password
  let aurl := authURL c.url
  match O.reqErr "POST" aurl with
  | some e => ⟨.error e, c, i, []⟩
  | none =>
    let req : Request := ⟨"POST", aurl,
      [("Content-Type", "application/x-www-form-urlencoded"),
       ("Accept", "application/json")], params⟩
    match O.env i with
    | .transErr e => ⟨.error e, c, i + 1, [req]⟩
    | .success resp =>
      match resp.bodyRead with
      | .error e => ⟨.error e, c, i + 1, [req]⟩
      | .ok body =>
        match O.jsonSSO body with
        | .error e => ⟨.error e, c, i + 1, [req]⟩
        | .ok sso =>
          if sso.ssoError ≠ "" then ⟨.error sso.ssoError, c, i + 1, [req]⟩
          else if resp.statusCode ≠ 200 then ⟨.error resp.status, c, i + 1, [req]⟩
          else ⟨.ok (), { c with accessToken := sso.accessToken }, i + 1, [req]⟩

/-- Outcome of `sendRequest`: body bytes or error, the client afterwards
(re-auth may refresh the token), the next transport-trace index, the number
of `Auth` invocations made, and the requests sent. -/
structure SendOut where
  result : Except String String
  client : Client
  next : Nat
  authCalls : Nat
  sent : List Request
deriving Repr

/-- The request a `sendRequest` call builds: trimmed-and-joined URI, XML
content negotiation headers and the bearer token. -/
def buildRequest (c : Client) (path method bodyStr : String) : Request :=
  ⟨method, requestURI c.url path,
   [("Content-Type", "application/xml"), ("Accept", "application/xml"),
    ("Authorization", "Bearer " ++ c.accessToken)], bodyStr⟩

/-- The `reauth = false` instance of the source's recursive `sendRequest`:
with the flag false the 401 branch is dead code, so a 401 falls through to
the `statusCode >= 300` failure. -/
def sendRequestRetry (O : Oracle) (c : Client) (path method bodyStr : String)
    (i : Nat) : SendOut :=
  let uri := requestURI c.url path
  match O.reqErr method uri with
  | some e => ⟨.error e, c, i, 0, []⟩
  | none =>
    let req := buildRequest c path method bodyStr
    match O.env i with
    | .transErr e => ⟨.error e, c, i + 1, 0, [req]⟩
    | .success resp =>
      if resp.statusCode ≥ 300 then ⟨.error resp.status, c, i + 1, 0, [req]⟩
      else
        match resp.bodyRead with
        | .error e => ⟨.error e, c, i + 1, 0, [req]⟩
        | .ok b => ⟨.ok b, c, i + 1, 0, [req]⟩

/-- The source's `sendRequest(path, method, body, reauth)`: on a 401 with
`reauth` set, call `Auth`; if it succeeds, retry once with re-auth disabled
(`sendRequestRetry`); if `Auth` fails its error is dropped and control falls
through to the `statusCode >= 300` check, which reports the original 401
status line. -/
def sendRequest (O : Oracle) (c : Client) (path method bodyStr : String)
    (reauth : Bool) (i : Nat) : SendOut :=
  let uri := requestURI c.url path
  match O.reqErr method uri with
  | some e => ⟨.error e, c, i, 0, []⟩
  | none =>
    let req := buildRequest c path method bodyStr
    match O.env i with
    | .transErr e => ⟨.error e, c, i + 1, 0, [req]⟩
    | .success resp =>
      if resp.statusCode = 401 ∧ reauth = true then
        let a := Auth O c (i + 1)
        match a.result with
        | .ok _ =>
          let r := sendRequestRetry O a.client path method bodyStr a.next
          ⟨r.result, r.client, r.next, 1 + r.authCalls, req :: a.sent ++ r.sent⟩
        | .error _ => ⟨.error resp.status, a.client, a.next, 1, req :: a.sent⟩
      else
        if resp.statusCode ≥ 300 then ⟨.error resp.status, c, i + 1, 0, [req]⟩
        else
          match resp.bodyRead with
          | .error e => ⟨.error e, c, i + 1, 0, [req]⟩
          | .ok b => ⟨.ok b, c, i + 1, 0, [req]⟩

/-- The public `SendRequest`, which enables re-authentication. -/
def SendRequest (O : Oracle) (c : Client) (path method bodyStr : String)
    (i : Nat) : SendOut :=
  sendRequest O c path method bodyStr true i

/-- The public `Get`: `SendRequest` with method GET and no body. -/
def Get (O : Oracle) (c : Client) (path : String) (i : Nat) : SendOut :=
  SendRequest O c path "GET" "" i

/-- Outcome of `SendAndParse`: the returned error (if any), the target value
afterwards, the client afterwards and the next transport-trace index. -/
structure ParseOut (α : Type) where
  err : Option String
  res : α
  client : Client
  next : Nat

/-- The source's `SendAndParse`: run `SendRequest`; on error return it with
the target untouched, otherwise apply `xml.Unmarshal` (modelled as a function
from body bytes and current target to new target and optional error). -/
def SendAndParse {α : Type} (O : Oracle) (c : Client) (path method : String)
    (unmarshal : String → α → α × Option String) (res : α) (bodyStr : String)
    (i : Nat) : ParseOut α :=
  let s := SendRequest O c path method bodyStr i
  match s.result with
  | .error e => ⟨some e, res, s.client, s.next⟩
  | .ok b =>
    let u := unmarshal b res
    ⟨u.2, u.1, s.client, s.next⟩

/-- The source's `GetAndParse`: `SendAndParse` with method GET and no body. -/
def GetAndParse {α : Type} (O : Oracle) (c : Client) (path : String)
    (unmarshal : String → α → α × Option String) (res : α) (i : Nat) :
    ParseOut α :=
  SendAndParse O c path "GET" unmarshal res "" i

/-- `NewClient`: build the zero-credential client, run `Auth`, and fail with
no client when it fails. -/
def NewClient (O : Oracle) (url username password : String) (i : Nat) :
    Except String Client × Nat :=
  let c : Client := ⟨url, username, password, ""⟩
  let a := Auth O c i
  match a.result with
  | .error e => (.error e, a.next)
  | .ok _ => (.ok a.client, a.next)

end api

namespace ovirt_api

/-- The cookie-strategy client state (package `ovirt_api`).  The transport,
logger and debug flag carry no claim-relevant state. -/
structure ApiClient where
  url : String
  username : String
  password : String
  cookie : String
deriving Repr, DecidableEq

/-- Outcome of the cookie-strategy `Auth`. -/
structure AuthOut where
  result : Except String Unit
  client : ApiClient
  next : Nat
  sent : List Request
deriving Repr

/-- The cookie-strategy `Auth`: HEAD the base URL with Basic credentials and
`Prefer: persistent-auth`; on status 200 store the first `;`-segment of the
`Set-Cookie` header as the session cookie. -/
def Auth (O : Oracle) (c : ApiClient) (i : Nat) : AuthOut :=
  match O.reqErr "HEAD" c.url with
  | some e => ⟨.error e, c, i, []⟩
  | none =>
    let req : Request := ⟨"HEAD", c.url,
      [("Authorization", basicAuthValue c.username c.password),
       ("Prefer", "persistent-auth")], ""⟩
    match O.env i with
    | .transErr e => ⟨.error e, c, i + 1, [req]⟩
    | .success resp =>
      if resp.statusCode ≠ 200 then ⟨.error resp.status, c, i + 1, [req]⟩
      else ⟨.ok (), { c with cookie := splitSemicolonHead resp.setCookie }, i + 1, [req]⟩

/-- Outcome of the cookie-strategy `SendRequest`: body bytes or error, next
transport-trace index and the requests sent (the client is never mutated). -/
structure SendOut where
  result : Except String String
  next : Nat
  sent : List Request
deriving Repr

/-- The request a cookie-strategy `SendRequest` builds. -/
def buildRequest (c : ApiClient) (path method bodyStr : String) : Request :=
  ⟨method, requestURI c.url path,
   [("Content-Type", "application/xml"), ("Prefer", "persistent-auth"),
    ("Cookie", c.cookie)], bodyStr⟩

/-- The cookie-strategy `SendRequest`: one attempt, no re-authentication;
any status at or above 300 fails with the status line. -/
def SendRequest (O : Oracle) (c : ApiClient) (path method bodyStr : String)
    (i : Nat) : SendOut :=
  let uri := requestURI c.url path
  match O.reqErr method uri with
  | some e => ⟨.error e, i, []⟩
  | none =>
    let req := buildRequest c path method bodyStr
    match O.env i with
    | .transErr e => ⟨.error e, i + 1, [req]⟩
    | .success resp =>
      if resp.statusCode ≥ 300 then ⟨.error resp.status, i + 1, [req]⟩
      else
        match resp.bodyRead with
        | .error e => ⟨.error e, i + 1, [req]⟩
        | .ok b => ⟨.ok b, i + 1, [req]⟩

/-- The cookie-strategy `Get`. -/
def Get (O : Oracle) (c : ApiClient) (path : String) (i : Nat) : SendOut :=
  SendRequest O c path "GET" "" i

/-- Outcome of the cookie-strategy `SendAndParse`. -/
structure ParseOut (α : Type) where
  err : Option String
  res : α
  next : Nat

/-- The cookie-strategy `SendAndParse`: run `SendRequest`; on error return it
with the target untouched, otherwise apply `xml.Unmarshal`. -/
def SendAndParse {α : Type} (O : Oracle) (c : ApiClient) (path method : String)
    (unmarshal : String → α → α × Option String) (res : α) (bodyStr : String)
    (i : Nat) : ParseOut α :=
  let s := SendRequest O c path method bodyStr i
  match s.result with
  | .error e => ⟨some e, res, s.next⟩
  | .ok b =>
    let u := unmarshal b res
    ⟨u.2, u.1, s.next⟩

/-- The cookie-strategy `GetAndParse`. -/
def GetAndParse {α : Type} (O : Oracle) (c : ApiClient) (path : String)
    (unmarshal : String → α → α × Option String) (res : α) (i : Nat) :
    ParseOut α :=
  SendAndParse O c path "GET" unmarshal res "" i

/-- The cookie-strategy `NewClient`: build the zero-cookie client, run
`Auth`, and fail with no client when it fails. -/
def NewClient (O : Oracle) (url username password : String) (i : Nat) :
    Except String ApiClient × Nat :=
  let c : ApiClient := ⟨url, username, password, ""⟩
  let a := Auth O c i
  match a.result with
  | .error e => (.error e, a.next)
  | .ok _ => (.ok a.client, a.next)

end ovirt_api


/-- The SSO URL derivation as the specification words it: strip a trailing
five-character "/api/" suffix from the base URL (when present) and append
"/sso/oauth/token".  Stated for comparison with `api.authURL`, which is the
source's cutset-based `strings.TrimRight`. -/
def specAuthURL (u : String) : String :=
  (if u.data.reverse.take 5 = ['/', 'i', 'p', 'a', '/'] then
    (⟨(u.data.reverse.drop 5).reverse⟩ : String)
  else u) ++ "/sso/oauth/token"

/-! Concrete fixtures used to exercise the theorems on closed inputs. -/

namespace Fx

/-- Request construction that always succeeds. -/
def reqOk : String → String → Option String := fun _ _ => none

/-- A 200 response with the given body. -/
def r200 (b : String) : Response := ⟨200, "200 OK", "", .ok b⟩

/-- A 401 response. -/
def r401 : Response := ⟨401, "401 Unauthorized", "", .ok ""⟩

/-- A 500 response. -/
def r500 : Response := ⟨500, "500 Internal Server Error", "", .ok ""⟩

/-- A JSON decoder that always yields a successful SSO response with the
given token. -/
def jsonTok (tok : String) : String → Except String SsoResponseJSON :=
  fun _ => .ok ⟨tok, "", ""⟩

/-- Oracle whose every transport call yields a 401. -/
def oAll401 : Oracle := ⟨fun _ => .success r401, reqOk, jsonTok "t2"⟩

/-- Oracle whose every transport call fails. -/
def oDown : Oracle := ⟨fun _ => .transErr "boom", reqOk, jsonTok "t2"⟩

/-- Oracle whose every transport call yields a 500. -/
def oAll500 : Oracle := ⟨fun _ => .success r500, reqOk, jsonTok "t2"⟩

/-- Oracle whose every transport call yields a 200 with body abc. -/
def oAll200 : Oracle := ⟨fun _ => .success (r200 "abc"), reqOk, jsonTok "t2"⟩

/-- A token-strategy client fixture. -/
def tokClient : api.Client := ⟨"https://h/api", "u", "p", "t1"⟩

/-- A cookie-strategy client fixture. -/
def cookClient : ovirt_api.ApiClient := ⟨"https://h", "u", "p", "JSESSIONID=x"⟩

/-- A sample unmarshal function over Nat targets: body abc parses to 7,
anything else is a parse failure that bumps the target. -/
def umNat : String → Nat → Nat × Option String :=
  fun b r => if b = "abc" then (7, none) else (r + 1, some "parse failure")

/-- Oracle for the 401-then-authenticate-then-200 run: first transport call
401, second the SSO exchange, later calls 200 with body hello. -/
def o401then200 : Oracle :=
  ⟨fun n => if n = 0 then .success r401
    else if n = 1 then .success (r200 "sso") else .success (r200 "hello"),
   reqOk, jsonTok "t2"⟩

/-- Oracle where the first call is a 401 and re-authentication is denied by
the SSO server (non-empty error field). -/
def o401authFail : Oracle :=
  ⟨fun n => if n = 0 then .success r401 else .success (r200 "sso"),
   reqOk, fun _ => .ok ⟨"", "access_denied", "x"⟩⟩

/-- Oracle whose SSO exchange succeeds with HTTP 200 but an empty
access_token (for example a 200 reply with body null). -/
def oEmptyTok : Oracle :=
  ⟨fun _ => .success (r200 "null"), reqOk, fun _ => .ok ⟨"", "", ""⟩⟩

/-- A 200 response carrying a Set-Cookie header. -/
def rCookie : Response := ⟨200, "200 OK", "JSESSIONID=abc; Path=/", .ok ""⟩

/-- Oracle whose every transport call yields the cookie-bearing 200. -/
def oCookie : Oracle := ⟨fun _ => .success rCookie, reqOk, jsonTok "t2"⟩

end Fx

/-! Helper lemmas about the embedded operations. -/

namespace api

/-- With the re-auth flag off, `sendRequest` is exactly `sendRequestRetry`:
the 401 branch is dead. -/
theorem sendRequest_reauth_false (O : Oracle) (c : Client)
    (path method bodyStr : String) (i : Nat) :
    sendRequest O c path method bodyStr false i =
      sendRequestRetry O c path method bodyStr i := by
  simp only [sendRequest, sendRequestRetry]
  cases O.reqErr method (requestURI c.url path)
  case none =>
    cases O.env i
    case transErr e => rfl
    case success resp => simp
  case some e => rfl

/-- A retry (re-auth disabled) never invokes `Auth`. -/
theorem sendRequestRetry_authCalls (O : Oracle) (c : Client)
    (path method bodyStr : String) (i : Nat) :
    (sendRequestRetry O c path method bodyStr i).authCalls = 0 := by
  simp only [sendRequestRetry]
  cases O.reqErr method (requestURI c.url path)
  case none =>
    cases O.env i
    case transErr e => rfl
    case success resp =>
      by_cases h1 : resp.statusCode ≥ 300
      · simp [h1]
      · cases hb : resp.bodyRead <;> simp [h1, hb]
  case some e => rfl

/-- Whenever request construction succeeds, the first request `sendRequest`
sends is the one `buildRequest` describes. -/
theorem sendRequest_sent_head (O : Oracle) (c : Client)
    (path method bodyStr : String) (reauth : Bool) (i : Nat)
    (h : O.reqErr method (requestURI c.url path) = none) :
    (sendRequest O c path method bodyStr reauth i).sent.head? =
      some (buildRequest c path method bodyStr) := by
  simp only [sendRequest, h]
  cases O.env i
  case transErr e => rfl
  case success resp =>
    by_cases h1 : resp.statusCode = 401 ∧ reauth = true
    · simp only [if_pos h1]
      cases (Auth O c (i + 1)).result with
      | error e => rfl
      | ok u => rfl
    · simp only [if_neg h1]
      by_cases h2 : resp.statusCode ≥ 300
      · simp [h2]
      · cases hb : resp.bodyRead <;> simp [h2, hb]

/-- Whenever `Auth` returns an error the client is unchanged (the token
assignment is the last step, after every check). -/
theorem Auth_ok_or_unchanged (O : Oracle) (c : Client) (i : Nat) :
    (Auth O c i).result = .ok () ∨ (Auth O c i).client = c := by
  cases hr : O.reqErr "POST" (authURL c.url) with
  | some e => exact .inr (by simp [Auth, hr])
  | none =>
    cases he : O.env i with
    | transErr e => exact .inr (by simp [Auth, hr, he])
    | success resp =>
      cases hb : resp.bodyRead with
      | error e => exact .inr (by simp [Auth, hr, he, hb])
      | ok body =>
        cases hj : O.jsonSSO body with
        | error e => exact .inr (by simp [Auth, hr, he, hb, hj])
        | ok sso =>
          by_cases h1 : sso.ssoError = ""
          · by_cases h2 : resp.statusCode = 200
            · exact .inl (by simp [Auth, hr, he, hb, hj, h1, h2])
            · exact .inr (by simp [Auth, hr, he, hb, hj, h1, h2])
          · exact .inr (by simp [Auth, hr, he, hb, hj, h1])

end api

namespace ovirt_api

/-- Whenever request construction succeeds, the request the cookie-strategy
`SendRequest` sends is the one `buildRequest` describes. -/
theorem SendRequest_sent_head (O : Oracle) (c : ApiClient)
    (path method bodyStr : String) (i : Nat)
    (h : O.reqErr method (requestURI c.url path) = none) :
    (SendRequest O c path method bodyStr i).sent.head? =
      some (buildRequest c path method bodyStr) := by
  simp only [SendRequest, h]
  cases O.env i
  case transErr e => rfl
  case success resp =>
    by_cases h1 : resp.statusCode ≥ 300
    · simp [h1]
    · cases hb : resp.bodyRead <;> simp [h1, hb]

/-- Whenever the cookie-strategy `Auth` returns an error the client is
unchanged. -/
theorem cookieAuth_ok_or_unchanged (O : Oracle) (c : ApiClient) (i : Nat) :
    (Auth O c i).result = .ok () ∨ (Auth O c i).client = c := by
  simp only [Auth]
  cases O.reqErr "HEAD" c.url
  case none =>
    cases O.env i
    case transErr e => exact .inr rfl
    case success resp =>
      by_cases h1 : resp.statusCode ≠ 200
      · simp [h1]
      · simp [h1]
  case some e => exact .inr rfl

end ovirt_api


/-! Theorems settling the claims. -/

/-- C2: in the cookie-strategy client, `SendRequest` never re-authenticates:
whenever the transport returns a response with status at least 300 (401
included), the call fails immediately with the HTTP status line, having sent
exactly one request and consumed exactly one transport call — so `Auth` is
never invoked and no retry happens. -/
theorem c2_cookie_no_reauth (O : Oracle) (c : ovirt_api.ApiClient)
    (path method bodyStr : String) (i : Nat) (r : Response)
    (hreq : O.reqErr method (requestURI c.url path) = none)
    (henv : O.env i = .success r) (hs : r.statusCode ≥ 300) :
    ovirt_api.SendRequest O c path method bodyStr i =
      ⟨.error r.status, i + 1, [ovirt_api.buildRequest c path method bodyStr]⟩ := by
  simp only [ovirt_api.SendRequest, hreq, henv]
  rw [if_pos hs]

/-- Witness for C2: a concrete 401 run of the cookie client fails at once
with the status line after a single request. -/
theorem c2_cookie_no_reauth_witness :
    ovirt_api.SendRequest Fx.oAll401 Fx.cookClient "vms" "GET" "" 0 =
      ⟨.error "401 Unauthorized", 1, [ovirt_api.buildRequest Fx.cookClient "vms" "GET" ""]⟩ :=
  c2_cookie_no_reauth Fx.oAll401 Fx.cookClient "vms" "GET" "" 0 Fx.r401
    rfl rfl (by decide)

/-- C7: in both variants, when `SendRequest` fails its error is returned
unchanged, no XML decoding happens and the target is untouched (the outcome
is the same for every unmarshal function); when it succeeds the returned
body is decoded and the call errors exactly when the decoder reports an
error; and `GetAndParse` is `SendAndParse` with method GET and empty body. -/
theorem c7_parse_pipeline (α β : Type) (O : Oracle) (c : api.Client)
    (cc : ovirt_api.ApiClient) (path method bodyStr : String) (i : Nat) :
    (∀ e, (api.SendRequest O c path method bodyStr i).result = .error e →
      ∀ (um : String → α → α × Option String) (res : α),
        api.SendAndParse O c path method um res bodyStr i =
          ⟨some e, res, (api.SendRequest O c path method bodyStr i).client,
           (api.SendRequest O c path method bodyStr i).next⟩) ∧
    (∀ b, (api.SendRequest O c path method bodyStr i).result = .ok b →
      ∀ (um : String → α → α × Option String) (res : α),
        api.SendAndParse O c path method um res bodyStr i =
          ⟨(um b res).2, (um b res).1,
           (api.SendRequest O c path method bodyStr i).client,
           (api.SendRequest O c path method bodyStr i).next⟩) ∧
    (∀ e, (ovirt_api.SendRequest O cc path method bodyStr i).result = .error e →
      ∀ (um : String → β → β × Option String) (res : β),
        ovirt_api.SendAndParse O cc path method um res bodyStr i =
          ⟨some e, res, (ovirt_api.SendRequest O cc path method bodyStr i).next⟩) ∧
    (∀ b, (ovirt_api.SendRequest O cc path method bodyStr i).result = .ok b →
      ∀ (um : String → β → β × Option String) (res : β),
        ovirt_api.SendAndParse O cc path method um res bodyStr i =
          ⟨(um b res).2, (um b res).1,
           (ovirt_api.SendRequest O cc path method bodyStr i).next⟩) ∧
    (∀ (um : String → α → α × Option String) (res : α),
      api.GetAndParse O c path um res i =
        api.SendAndParse O c path "GET" um res "" i) ∧
    (∀ (um : String → β → β × Option String) (res : β),
      ovirt_api.GetAndParse O cc path um res i =
        ovirt_api.SendAndParse O cc path "GET" um res "" i) := by
  refine ⟨?_, ?_, ?_, ?_, fun _ _ => rfl, fun _ _ => rfl⟩
  · intro e h um res
    simp only [api.SendAndParse, h]
  · intro b h um res
    simp only [api.SendAndParse, h]
  · intro e h um res
    simp only [ovirt_api.SendAndParse, h]
  · intro b h um res
    simp only [ovirt_api.SendAndParse, h]

/-- Witness for C7: on a transport failure the parse step is skipped and the
target Nat stays 37; on a 200 with body abc the decoder output is returned. -/
theorem c7_parse_pipeline_witness :
    (api.SendAndParse Fx.oDown Fx.tokClient "vms" "GET" Fx.umNat 37 "" 0 =
      ⟨some "boom", 37, (api.SendRequest Fx.oDown Fx.tokClient "vms" "GET" "" 0).client,
       (api.SendRequest Fx.oDown Fx.tokClient "vms" "GET" "" 0).next⟩) ∧
    (api.SendAndParse Fx.oAll200 Fx.tokClient "vms" "GET" Fx.umNat 37 "" 0 =
      ⟨none, 7, (api.SendRequest Fx.oAll200 Fx.tokClient "vms" "GET" "" 0).client,
       (api.SendRequest Fx.oAll200 Fx.tokClient "vms" "GET" "" 0).next⟩) ∧
    (ovirt_api.SendAndParse Fx.oDown Fx.cookClient "vms" "GET" Fx.umNat 37 "" 0 =
      ⟨some "boom", 37, (ovirt_api.SendRequest Fx.oDown Fx.cookClient "vms" "GET" "" 0).next⟩) :=
  ⟨(c7_parse_pipeline Nat Nat Fx.oDown Fx.tokClient Fx.cookClient "vms" "GET" "" 0).1
      "boom" rfl Fx.umNat 37,
   (c7_parse_pipeline Nat Nat Fx.oAll200 Fx.tokClient Fx.cookClient "vms" "GET" "" 0).2.1
      "abc" rfl Fx.umNat 37,
   (c7_parse_pipeline Nat Nat Fx.oDown Fx.tokClient Fx.cookClient "vms" "GET" "" 0).2.2.1
      "boom" rfl Fx.umNat 37⟩

/-- C10: in both variants `Auth` is atomic in the stored credential: whenever
it returns an error, the client record (hence the credential field) is
exactly what it was before the call. -/
theorem c10_auth_atomic (O : Oracle) (c : api.Client) (cc : ovirt_api.ApiClient)
    (i : Nat) (e f : String) :
    ((api.Auth O c i).result = .error e → (api.Auth O c i).client = c) ∧
    ((ovirt_api.Auth O cc i).result = .error f → (ovirt_api.Auth O cc i).client = cc) := by
  constructor
  · intro h
    rcases api.Auth_ok_or_unchanged O c i with hk | hu
    · rw [h] at hk; simp at hk
    · exact hu
  · intro h
    rcases ovirt_api.cookieAuth_ok_or_unchanged O cc i with hk | hu
    · rw [h] at hk; simp at hk
    · exact hu

/-- Witness for C10: with the transport down, both authentication attempts
fail and both clients are unchanged. -/
theorem c10_auth_atomic_witness :
    (api.Auth Fx.oDown Fx.tokClient 0).client = Fx.tokClient ∧
    (ovirt_api.Auth Fx.oDown Fx.cookClient 0).client = Fx.cookClient :=
  ⟨(c10_auth_atomic Fx.oDown Fx.tokClient Fx.cookClient 0 "boom" "boom").1 rfl,
   (c10_auth_atomic Fx.oDown Fx.tokClient Fx.cookClient 0 "boom" "boom").2 rfl⟩

/-- C8: in both variants `NewClient` returns an error exactly when the
initial `Auth` fails, propagating that error and returning no client value
at all; on success the returned client is the one `Auth` just produced,
carrying the credential `Auth` established. -/
theorem c8_construction_atomic (O : Oracle) (url username password : String)
    (i : Nat) :
    (∀ e, (api.NewClient O url username password i).1 = .error e ↔
      (api.Auth O ⟨url, username, password, ""⟩ i).result = .error e) ∧
    (∀ c', (api.NewClient O url username password i).1 = .ok c' →
      (api.Auth O ⟨url, username, password, ""⟩ i).result = .ok () ∧
      c' = (api.Auth O ⟨url, username, password, ""⟩ i).client) ∧
    ((api.Auth O ⟨url, username, password, ""⟩ i).result = .ok () →
      (api.NewClient O url username password i).1 =
        .ok (api.Auth O ⟨url, username, password, ""⟩ i).client) ∧
    (∀ e, (ovirt_api.NewClient O url username password i).1 = .error e ↔
      (ovirt_api.Auth O ⟨url, username, password, ""⟩ i).result = .error e) ∧
    (∀ c', (ovirt_api.NewClient O url username password i).1 = .ok c' →
      (ovirt_api.Auth O ⟨url, username, password, ""⟩ i).result = .ok () ∧
      c' = (ovirt_api.Auth O ⟨url, username, password, ""⟩ i).client) ∧
    ((ovirt_api.Auth O ⟨url, username, password, ""⟩ i).result = .ok () →
      (ovirt_api.NewClient O url username password i).1 =
        .ok (ovirt_api.Auth O ⟨url, username, password, ""⟩ i).client) := by
  refine ⟨?_, ?_, ?_, ?_, ?_, ?_⟩
  · intro e
    cases ha : (api.Auth O ⟨url, username, password, ""⟩ i).result with
    | error e2 => simp [api.NewClient, ha]
    | ok u => simp [api.NewClient, ha]
  · intro c' h
    cases ha : (api.Auth O ⟨url, username, password, ""⟩ i).result with
    | error e2 => simp [api.NewClient, ha] at h
    | ok u => simp [api.NewClient, ha] at h; simp [ha, h]
  · intro h
    simp [api.NewClient, h]
  · intro e
    cases ha : (ovirt_api.Auth O ⟨url, username, password, ""⟩ i).result with
    | error e2 => simp [ovirt_api.NewClient, ha]
    | ok u => simp [ovirt_api.NewClient, ha]
  · intro c' h
    cases ha : (ovirt_api.Auth O ⟨url, username, password, ""⟩ i).result with
    | error e2 => simp [ovirt_api.NewClient, ha] at h
    | ok u => simp [ovirt_api.NewClient, ha] at h; simp [ha, h]
  · intro h
    simp [ovirt_api.NewClient, h]

/-- Witness for C8: with the transport down construction fails with that
error in both variants; with a healthy transport it succeeds and returns the
freshly authenticated client. -/
theorem c8_construction_atomic_witness :
    ((api.NewClient Fx.oDown "https://h/api" "u" "p" 0).1 = .error "boom" ↔
      (api.Auth Fx.oDown ⟨"https://h/api", "u", "p", ""⟩ 0).result = .error "boom") ∧
    ((api.Auth Fx.oAll200 ⟨"https://h/api", "u", "p", ""⟩ 0).result = .ok () →
      (api.NewClient Fx.oAll200 "https://h/api" "u" "p" 0).1 =
        .ok (api.Auth Fx.oAll200 ⟨"https://h/api", "u", "p", ""⟩ 0).client) ∧
    ((ovirt_api.Auth Fx.oAll200 ⟨"https://h", "u", "p", ""⟩ 0).result = .ok () →
      (ovirt_api.NewClient Fx.oAll200 "https://h" "u" "p" 0).1 =
        .ok (ovirt_api.Auth Fx.oAll200 ⟨"https://h", "u", "p", ""⟩ 0).client) :=
  ⟨(c8_construction_atomic Fx.oDown "https://h/api" "u" "p" 0).1 "boom",
   (c8_construction_atomic Fx.oAll200 "https://h/api" "u" "p" 0).2.2.1,
   (c8_construction_atomic Fx.oAll200 "https://h" "u" "p" 0).2.2.2.2.2⟩

/-- C1: in the token-strategy client, when the first response to a
`SendRequest` is a 401, `Auth` is invoked exactly once; if it succeeds the
request is retried exactly once with the refreshed client and re-auth
disabled, so a 401-then-200 run returns the retried response's body and a
401-on-both-attempts run fails with the second status line. -/
theorem c1_token_reauth_once (O : Oracle) (c : api.Client)
    (path method bodyStr : String) (i : Nat) (r1 : Response)
    (hreq : ∀ m u, O.reqErr m u = none)
    (henv : O.env i = .success r1) (h401 : r1.statusCode = 401) :
    (api.SendRequest O c path method bodyStr i).authCalls = 1 ∧
    ((api.Auth O c (i + 1)).result = .ok () →
      (api.SendRequest O c path method bodyStr i).result =
        (api.sendRequestRetry O (api.Auth O c (i + 1)).client path method bodyStr
          (api.Auth O c (i + 1)).next).result) ∧
    (∀ r2 b2, (api.Auth O c (i + 1)).result = .ok () →
      O.env (api.Auth O c (i + 1)).next = .success r2 → r2.statusCode = 200 →
      r2.bodyRead = .ok b2 →
      (api.SendRequest O c path method bodyStr i).result = .ok b2) ∧
    (∀ r2, (api.Auth O c (i + 1)).result = .ok () →
      O.env (api.Auth O c (i + 1)).next = .success r2 → r2.statusCode = 401 →
      (api.SendRequest O c path method bodyStr i).result = .error r2.status) := by
  have hu := hreq method (requestURI c.url path)
  simp only [api.SendRequest, api.sendRequest, hu, henv]
  rw [if_pos (show r1.statusCode = 401 ∧ True from ⟨h401, trivial⟩)]
  cases ha : (api.Auth O c (i + 1)).result with
  | error e =>
    exact ⟨rfl, fun h => by simp at h, fun r2 b2 h _ _ _ => by simp at h,
      fun r2 h _ _ => by simp at h⟩
  | ok u =>
    refine ⟨?_, fun _ => rfl, ?_, ?_⟩
    · show 1 + (api.sendRequestRetry O _ path method bodyStr _).authCalls = 1
      rw [api.sendRequestRetry_authCalls]
    · intro r2 b2 _ he2 hs2 hb2
      show (api.sendRequestRetry O (api.Auth O c (i + 1)).client path method bodyStr
        (api.Auth O c (i + 1)).next).result = .ok b2
      simp only [api.sendRequestRetry, hreq method _, he2, hs2, hb2]
      simp
    · intro r2 _ he2 hs2
      show (api.sendRequestRetry O (api.Auth O c (i + 1)).client path method bodyStr
        (api.Auth O c (i + 1)).next).result = .error r2.status
      simp only [api.sendRequestRetry, hreq method _, he2, hs2]
      simp

/-- Witness for C1: on the concrete 401-then-200 trace the request succeeds
with the retried body and authentication ran exactly once. -/
theorem c1_token_reauth_once_witness :
    (api.SendRequest Fx.o401then200 Fx.tokClient "vms" "GET" "" 0).authCalls = 1 ∧
    (api.SendRequest Fx.o401then200 Fx.tokClient "vms" "GET" "" 0).result = .ok "hello" :=
  ⟨(c1_token_reauth_once Fx.o401then200 Fx.tokClient "vms" "GET" "" 0 Fx.r401
      (fun _ _ => rfl) rfl rfl).1,
   (c1_token_reauth_once Fx.o401then200 Fx.tokClient "vms" "GET" "" 0 Fx.r401
      (fun _ _ => rfl) rfl rfl).2.2.1 (Fx.r200 "hello") "hello" rfl rfl rfl rfl⟩

/-- C9: in the token-strategy client, when the first response is a 401 and
the triggered re-authentication itself fails, the authentication error is
discarded: the call fails with the original 401 status line, after exactly
one authentication attempt. -/
theorem c9_auth_error_discarded (O : Oracle) (c : api.Client)
    (path method bodyStr : String) (i : Nat) (r1 : Response) (eA : String)
    (hreq : ∀ m u, O.reqErr m u = none)
    (henv : O.env i = .success r1) (h401 : r1.statusCode = 401)
    (hauth : (api.Auth O c (i + 1)).result = .error eA) :
    (api.SendRequest O c path method bodyStr i).result = .error r1.status ∧
    (api.SendRequest O c path method bodyStr i).authCalls = 1 := by
  have hu := hreq method (requestURI c.url path)
  simp only [api.SendRequest, api.sendRequest, hu, henv]
  rw [if_pos (show r1.statusCode = 401 ∧ True from ⟨h401, trivial⟩)]
  simp [hauth]

/-- Witness for C9: the SSO server denies re-authentication with
access_denied, yet the caller sees the original 401 status line. -/
theorem c9_auth_error_discarded_witness :
    (api.SendRequest Fx.o401authFail Fx.tokClient "vms" "GET" "" 0).result =
      .error "401 Unauthorized" ∧
    (api.SendRequest Fx.o401authFail Fx.tokClient "vms" "GET" "" 0).authCalls = 1 :=
  c9_auth_error_discarded Fx.o401authFail Fx.tokClient "vms" "GET" "" 0 Fx.r401
    "access_denied" (fun _ _ => rfl) rfl rfl rfl

/-- C4: the token-strategy `Auth` fails with the SSO error message whenever
the decoded error field is non-empty, fails with the status line whenever the
status is not 200, and otherwise succeeds, stores access_token as the
credential, and every subsequent request carries the header
Authorization: Bearer token. -/
theorem c4_token_auth_outcome (O : Oracle) (c : api.Client) (i : Nat)
    (resp : Response) (body : String) (sso : SsoResponseJSON)
    (hreq : ∀ m u, O.reqErr m u = none)
    (henv : O.env i = .success resp) (hread : resp.bodyRead = .ok body)
    (hjson : O.jsonSSO body = .ok sso) :
    (sso.ssoError ≠ "" → (api.Auth O c i).result = .error sso.ssoError) ∧
    (sso.ssoError = "" → resp.statusCode ≠ 200 →
      (api.Auth O c i).result = .error resp.status) ∧
    (sso.ssoError = "" → resp.statusCode = 200 →
      (api.Auth O c i).result = .ok () ∧
      (api.Auth O c i).client.accessToken = sso.accessToken ∧
      ∀ path method bodyStr reauth j,
        ((api.sendRequest O (api.Auth O c i).client path method bodyStr reauth
            j).sent.head?).map (fun r => headerValue r "Authorization") =
          some (some ("Bearer " ++ sso.accessToken))) := by
  have hP := hreq "POST" (api.authURL c.url)
  refine ⟨?_, ?_, ?_⟩
  · intro hne
    simp only [api.Auth, hP, henv, hread, hjson]
    rw [if_pos hne]
  · intro he hs
    simp only [api.Auth, hP, henv, hread, hjson]
    rw [if_neg (by simp [he]), if_pos hs]
  · intro he hs
    have hres : (api.Auth O c i).result = .ok () := by
      simp only [api.Auth, hP, henv, hread, hjson]
      rw [if_neg (by simp [he]), if_neg (by simp [hs])]
    have hcli : (api.Auth O c i).client = { c with accessToken := sso.accessToken } := by
      simp only [api.Auth, hP, henv, hread, hjson]
      rw [if_neg (by simp [he]), if_neg (by simp [hs])]
    refine ⟨hres, by rw [hcli], ?_⟩
    intro path method bodyStr reauth j
    rw [api.sendRequest_sent_head O ((api.Auth O c i).client) path method bodyStr
      reauth j (hreq _ _)]
    rw [hcli]
    rfl

/-- Witness for C4: a concrete healthy SSO exchange stores token t2 and a
following request carries Authorization Bearer t2. -/
theorem c4_token_auth_outcome_witness :
    (api.Auth Fx.oAll200 ⟨"https://h/api", "u", "p", ""⟩ 0).result = .ok () ∧
    (api.Auth Fx.oAll200 ⟨"https://h/api", "u", "p", ""⟩ 0).client.accessToken = "t2" ∧
    ((api.sendRequest Fx.oAll200
        (api.Auth Fx.oAll200 ⟨"https://h/api", "u", "p", ""⟩ 0).client
        "vms" "GET" "" true 1).sent.head?).map
      (fun r => headerValue r "Authorization") = some (some ("Bearer " ++ "t2")) :=
  have h := (c4_token_auth_outcome Fx.oAll200 ⟨"https://h/api", "u", "p", ""⟩ 0
    (Fx.r200 "abc") "abc" ⟨"t2", "", ""⟩ (fun _ _ => rfl) rfl rfl rfl).2.2 rfl rfl
  ⟨h.1, h.2.1, h.2.2 "vms" "GET" "" true 1⟩

/-- The slash character belongs to the slash cutset. -/
theorem inCutset_slash : inCutset "/" '/' = true := rfl

/-- Trimming is unaffected by an extra trailing slash. -/
theorem goTrimRight_append_slash (s : String) :
    goTrimRight (s ++ "/") "/" = goTrimRight s "/" := by
  unfold goTrimRight
  apply congrArg String.mk
  apply congrArg List.reverse
  rw [String.data_append, show ("/" : String).data = ['/'] from rfl,
    List.reverse_append]
  simp [List.dropWhile_cons, inCutset_slash]

/-- goTrim is unaffected by an extra trailing slash. -/
theorem goTrim_append_slash (s : String) : goTrim (s ++ "/") "/" = goTrim s "/" := by
  unfold goTrim
  rw [goTrimRight_append_slash]

/-- goTrim is unaffected by an extra leading slash. -/
theorem goTrim_slash_append (s : String) : goTrim ("/" ++ s) "/" = goTrim s "/" := by
  unfold goTrim goTrimLeft goTrimRight
  apply congrArg String.mk
  rw [String.data_append, show ("/" : String).data = ['/'] from rfl]
  rw [show (['/'] ++ s.data).reverse = s.data.reverse ++ ['/'] by
    rw [List.reverse_append]; rfl]
  rw [List.dropWhile_append]
  by_cases h : (s.data.reverse.dropWhile (inCutset "/")).isEmpty
  · rw [if_pos h]
    rw [List.isEmpty_iff.mp h]
    simp [List.dropWhile, inCutset_slash]
  · rw [if_neg h]
    rw [List.reverse_append]
    simp [List.dropWhile_cons, inCutset_slash]

/-- C6: both variants send their request to `requestURI`, the base URL and
path trimmed of leading and trailing slashes and joined with one slash; the
URI is invariant under extra leading or trailing slashes on the path, and in
particular get with path /vms/ and get with path vms send requests to
identical URIs in both variants. -/
theorem c6_uri_trimming (O : Oracle) (c : api.Client) (cc : ovirt_api.ApiClient)
    (path method bodyStr : String) (i : Nat)
    (hreq : ∀ m u, O.reqErr m u = none) :
    ((api.SendRequest O c path method bodyStr i).sent.head?).map Request.url =
      some (goTrim c.url "/" ++ "/" ++ goTrim path "/") ∧
    ((ovirt_api.SendRequest O cc path method bodyStr i).sent.head?).map Request.url =
      some (goTrim cc.url "/" ++ "/" ++ goTrim path "/") ∧
    (∀ p, requestURI c.url ("/" ++ p) = requestURI c.url p) ∧
    (∀ p, requestURI c.url (p ++ "/") = requestURI c.url p) ∧
    ((api.Get O c "/vms/" i).sent.head?).map Request.url =
      ((api.Get O c "vms" i).sent.head?).map Request.url ∧
    ((ovirt_api.Get O cc "/vms/" i).sent.head?).map Request.url =
      ((ovirt_api.Get O cc "vms" i).sent.head?).map Request.url := by
  have huri : requestURI c.url "/vms/" = requestURI c.url "vms" := by
    have h1 : ("/vms/" : String) = "/" ++ "vms/" := rfl
    have h2 : ("vms/" : String) = "vms" ++ "/" := rfl
    unfold requestURI
    rw [h1, goTrim_slash_append, h2, goTrim_append_slash]
  have huric : requestURI cc.url "/vms/" = requestURI cc.url "vms" := by
    have h1 : ("/vms/" : String) = "/" ++ "vms/" := rfl
    have h2 : ("vms/" : String) = "vms" ++ "/" := rfl
    unfold requestURI
    rw [h1, goTrim_slash_append, h2, goTrim_append_slash]
  refine ⟨?_, ?_, ?_, ?_, ?_, ?_⟩
  · show ((api.sendRequest O c path method bodyStr true i).sent.head?).map
      Request.url = _
    rw [api.sendRequest_sent_head O c path method bodyStr true i (hreq _ _)]
    rfl
  · rw [ovirt_api.SendRequest_sent_head O cc path method bodyStr i (hreq _ _)]
    rfl
  · intro p
    unfold requestURI
    rw [goTrim_slash_append]
  · intro p
    unfold requestURI
    rw [goTrim_append_slash]
  · show ((api.sendRequest O c "/vms/" "GET" "" true i).sent.head?).map
      Request.url = ((api.sendRequest O c "vms" "GET" "" true i).sent.head?).map
      Request.url
    rw [api.sendRequest_sent_head O c "/vms/" "GET" "" true i (hreq _ _),
      api.sendRequest_sent_head O c "vms" "GET" "" true i (hreq _ _)]
    show some (requestURI c.url "/vms/") = some (requestURI c.url "vms")
    rw [huri]
  · show ((ovirt_api.SendRequest O cc "/vms/" "GET" "" i).sent.head?).map
      Request.url = ((ovirt_api.SendRequest O cc "vms" "GET" "" i).sent.head?).map
      Request.url
    rw [ovirt_api.SendRequest_sent_head O cc "/vms/" "GET" "" i (hreq _ _),
      ovirt_api.SendRequest_sent_head O cc "vms" "GET" "" i (hreq _ _)]
    show some (requestURI cc.url "/vms/") = some (requestURI cc.url "vms")
    rw [huric]

/-- Witness for C6: on a concrete healthy oracle, get /vms/ and get vms hit
the same URI in both variants. -/
theorem c6_uri_trimming_witness :
    ((api.Get Fx.oAll200 Fx.tokClient "/vms/" 0).sent.head?).map Request.url =
      ((api.Get Fx.oAll200 Fx.tokClient "vms" 0).sent.head?).map Request.url ∧
    ((ovirt_api.Get Fx.oAll200 Fx.cookClient "/vms/" 0).sent.head?).map Request.url =
      ((ovirt_api.Get Fx.oAll200 Fx.cookClient "vms" 0).sent.head?).map Request.url :=
  ⟨(c6_uri_trimming Fx.oAll200 Fx.tokClient Fx.cookClient "x" "GET" "" 0
      (fun _ _ => rfl)).2.2.2.2.1,
   (c6_uri_trimming Fx.oAll200 Fx.tokClient Fx.cookClient "x" "GET" "" 0
      (fun _ _ => rfl)).2.2.2.2.2⟩

/-- C3 fails as stated: for the base URL https://host.ai the code's
cutset-based TrimRight also eats the i and a of the .ai top-level domain,
while the spec's strip-a-trailing-"/api/"-suffix rule leaves the URL intact,
so the SSO POST goes to https://host./sso/oauth/token rather than the
spec-mandated https://host.ai/sso/oauth/token. -/
theorem c3_sso_url_counterexample :
    api.authURL "https://host.ai" = "https://host./sso/oauth/token" ∧
    specAuthURL "https://host.ai" = "https://host.ai/sso/oauth/token" ∧
    api.authURL "https://host.ai" ≠ specAuthURL "https://host.ai" ∧
    ((api.Auth Fx.oAll200 ⟨"https://host.ai", "u", "p", ""⟩ 0).sent.map
      Request.url) = ["https://host./sso/oauth/token"] := by decide

/-- C3 (amended): the SSO authentication request is a single form-encoded
POST to the URL obtained by removing ALL trailing characters drawn from the
cutset slash-a-p-i from the base URL (Go strings.TrimRight with cutset
"/api/") and appending /sso/oauth/token, whose body carries the form fields
grant_type=password, scope=ovirt-app-api and the stored username and
password in sorted key order. -/
theorem c3_sso_request (O : Oracle) (c : api.Client) (i : Nat)
    (h : O.reqErr "POST" (api.authURL c.url) = none) :
    (api.Auth O c i).sent =
      [⟨"POST", goTrimRight c.url "/api/" ++ "/sso/oauth/token",
        [("Content-Type", "application/x-www-form-urlencoded"),
         ("Accept", "application/json")],
        valuesEncode [("grant_type", "password"), ("password", c.password),
          ("scope", "ovirt-app-api"), ("username", c.username)]⟩] := by
  have hP : O.reqErr "POST" (goTrimRight c.url "/api/" ++ "/sso/oauth/token") = none := h
  cases he : O.env i with
  | transErr e => simp [api.Auth, api.authURL, api.ssoPayload, hP, he]
  | success resp =>
    cases hb : resp.bodyRead with
    | error e => simp [api.Auth, api.authURL, api.ssoPayload, hP, he, hb]
    | ok body =>
      cases hj : O.jsonSSO body with
      | error e => simp [api.Auth, api.authURL, api.ssoPayload, hP, he, hb, hj]
      | ok sso =>
        by_cases h1 : sso.ssoError = ""
        · by_cases hs : resp.statusCode = 200
          · simp [api.Auth, api.authURL, api.ssoPayload, hP, he, hb, hj, h1, hs]
          · simp [api.Auth, api.authURL, api.ssoPayload, hP, he, hb, hj, h1, hs]
        · simp [api.Auth, api.authURL, api.ssoPayload, hP, he, hb, hj, h1]

/-- Witness for C3 (amended): the concrete SSO request sent for the
https://host.ai client. -/
theorem c3_sso_request_witness :
    (api.Auth Fx.oAll200 ⟨"https://host.ai", "u", "p", ""⟩ 0).sent =
      [⟨"POST", goTrimRight "https://host.ai" "/api/" ++ "/sso/oauth/token",
        [("Content-Type", "application/x-www-form-urlencoded"),
         ("Accept", "application/json")],
        valuesEncode [("grant_type", "password"), ("password", "p"),
          ("scope", "ovirt-app-api"), ("username", "u")]⟩] :=
  c3_sso_request Fx.oAll200 ⟨"https://host.ai", "u", "p", ""⟩ 0 rfl

/-- C5 fails as stated: an SSO exchange answering 200 with an empty
access_token (for example body null) makes construction succeed while the
stored credential is the empty string — the code never checks
non-emptiness. -/
theorem c5_nonempty_counterexample :
    (api.NewClient Fx.oEmptyTok "https://h/api" "u" "p" 0).1 =
      .ok ⟨"https://h/api", "u", "p", ""⟩ ∧
    ((api.NewClient Fx.oEmptyTok "https://h/api" "u" "p" 0).1.toOption.map
      api.Client.accessToken) = some "" := by decide

/-- C5 (amended): after every successful construction the stored session
credential equals the server-supplied value — the SSO access_token in the
token variant, the first semicolon-segment of Set-Cookie in the cookie
variant — with no validation, so it may be empty. -/
theorem c5_credential_is_server_value (O : Oracle)
    (url username password : String) (i : Nat) (ct : api.Client)
    (cc : ovirt_api.ApiClient) (r : Response) (body : String)
    (sso : SsoResponseJSON) :
    ((api.NewClient O url username password i).1 = .ok ct →
      O.env i = .success r → r.bodyRead = .ok body →
      O.jsonSSO body = .ok sso → ct.accessToken = sso.accessToken) ∧
    ((ovirt_api.NewClient O url username password i).1 = .ok cc →
      O.env i = .success r → cc.cookie = splitSemicolonHead r.setCookie) := by
  constructor
  · intro h henv hread hjson
    cases ha : (api.Auth O ⟨url, username, password, ""⟩ i).result with
    | error e => simp [api.NewClient, ha] at h
    | ok u =>
      have hct : ct = (api.Auth O ⟨url, username, password, ""⟩ i).client := by
        simp [api.NewClient, ha] at h
        exact h.symm
      cases hr : O.reqErr "POST" (api.authURL url) with
      | some e => simp [api.Auth, hr] at ha
      | none =>
        have htok : (api.Auth O ⟨url, username, password, ""⟩ i).client.accessToken =
            sso.accessToken := by
          by_cases h1 : sso.ssoError = ""
          · by_cases h2 : r.statusCode = 200
            · simp [api.Auth, hr, henv, hread, hjson, h1, h2]
            · exfalso
              simp [api.Auth, hr, henv, hread, hjson, h1, h2] at ha
          · exfalso
            simp [api.Auth, hr, henv, hread, hjson, h1] at ha
        rw [hct, htok]
  · intro h henv
    cases ha : (ovirt_api.Auth O ⟨url, username, password, ""⟩ i).result with
    | error e => simp [ovirt_api.NewClient, ha] at h
    | ok u =>
      have hcc : cc = (ovirt_api.Auth O ⟨url, username, password, ""⟩ i).client := by
        simp [ovirt_api.NewClient, ha] at h
        exact h.symm
      cases hr : O.reqErr "HEAD" url with
      | some e => simp [ovirt_api.Auth, hr] at ha
      | none =>
        have hck : (ovirt_api.Auth O ⟨url, username, password, ""⟩ i).client.cookie =
            splitSemicolonHead r.setCookie := by
          by_cases h2 : r.statusCode = 200
          · simp [ovirt_api.Auth, hr, henv, h2]
          · exfalso
            simp [ovirt_api.Auth, hr, henv, h2] at ha
        rw [hcc, hck]

/-- Witness for C5 (amended): concrete constructions store exactly the
server-supplied token t2 and the first Set-Cookie segment JSESSIONID=abc. -/
theorem c5_credential_is_server_value_witness :
    (⟨"https://h/api", "u", "p", "t2"⟩ : api.Client).accessToken = "t2" ∧
    (⟨"https://h", "u", "p", "JSESSIONID=abc"⟩ : ovirt_api.ApiClient).cookie =
      splitSemicolonHead Fx.rCookie.setCookie :=
  ⟨(c5_credential_is_server_value Fx.oAll200 "https://h/api" "u" "p" 0
      ⟨"https://h/api", "u", "p", "t2"⟩ ⟨"https://h", "u", "p", ""⟩
      (Fx.r200 "abc") "abc" ⟨"t2", "", ""⟩).1 rfl rfl rfl rfl,
   (c5_credential_is_server_value Fx.oCookie "https://h" "u" "p" 0
      ⟨"https://h/api", "u", "p", ""⟩ ⟨"https://h", "u", "p", "JSESSIONID=abc"⟩
      Fx.rCookie "" ⟨"", "", ""⟩).2 rfl rfl⟩
